import Mathlib

/-!
Shallow embedding of the simulation core of the `monkey-meltdown` skiing game
(`src/components/StartScreen.tsx`, component `N64Game`): the per-frame
collision/scoring engine, lateral steering, ground-segment recycling, the
terrain height field, the object spawner, and the invincibility timer.

Numeric game quantities (positions, speeds) are embedded as `Rat`; the score
is an `Int`; the real-valued terrain function is embedded over `ℝ`.
-/

/-- The seven object kinds spawned by `spawnObject`.  The source tags each
spawned `THREE.Group` with `userData.type ∈ {obstacle, collectible, ramp}`
and, for collectibles, `userData.subtype`. -/
inductive ObjKind where
  | tree
  | rock
  | banana
  | pizza
  | mango
  | spaghetti
  | ramp
deriving DecidableEq, Repr

/-- `userData.type === 'obstacle'`: trees and rocks. -/
def ObjKind.isObstacle : ObjKind → Bool
  | .tree => true
  | .rock => true
  | _ => false

/-- `userData.type === 'collectible'`: banana, pizza, mango, spaghetti. -/
def ObjKind.isCollectible : ObjKind → Bool
  | .banana => true
  | .pizza => true
  | .mango => true
  | .spaghetti => true
  | _ => false

/-- The mutable gameplay state touched by the collision branches of the
`animate` loop: `scoreRef`/`setScore`, `speedRef`, `isInvincibleRef`,
`isAirborneRef`, `playerVelocityYRef`, the demo-mode flag `isDemoRef`, and
the player's y squash scale (`player.scale.y`). -/
structure GameState where
  score : Int
  speed : Rat
  invincible : Bool
  airborne : Bool
  velY : Rat
  demo : Bool
  scaleY : Rat
deriving DecidableEq, Repr

/-- One live world object: kind, position (x and z; y plays no role in
collision), the at-most-once resolution flag `userData.hit`, visibility, and
uniform shrink scale (used when an obstacle is neutralized). -/
structure WorldObject where
  kind : ObjKind
  x : Rat
  z : Rat
  hit : Bool
  visible : Bool
  scale : Rat
deriving DecidableEq, Repr

/-- The effect applied when a collision resolves (the body of the
`obj.userData.hit = true; ...` block, lines 2120-2172 of the source):
  * pizza: `setScore(s => Math.max(0, s - 50))` (skipped in demo), squash
    `player.scale.y = 0.5`, object becomes invisible;
  * banana/mango/spaghetti: `setScore(s => s + val)` with `val` 100/500/1000
    (skipped in demo); mango additionally sets `isInvincibleRef = true`
    (also in demo); object becomes invisible;
  * obstacle: if not invincible, `speedRef.current = 0.1` (crash); if
    invincible, the obstacle is shrunk to scale 0.1 instead;
  * ramp: if not airborne, set airborne, `playerVelocityYRef = 0.45`,
    `setScore(s => s + 200)` (skipped in demo), `speedRef += 0.03`;
    if already airborne, nothing. -/
def resolveHit (s : GameState) (o : WorldObject) : GameState × WorldObject :=
  if o.kind.isCollectible then
    if o.kind = .pizza then
      ({ s with score := if s.demo then s.score else max 0 (s.score - 50),
                scaleY := 1/2 },
       { o with visible := false })
    else
      let val : Int := if o.kind = .spaghetti then 1000
                       else if o.kind = .mango then 500 else 100
      let s' : GameState := if o.kind = .mango then { s with invincible := true } else s
      ({ s' with score := if s'.demo then s'.score else s'.score + val },
       { o with visible := false })
  else if o.kind.isObstacle then
    if s.invincible then (s, { o with scale := 1/10 })
    else ({ s with speed := 1/10 }, o)
  else
    if s.airborne then (s, o)
    else
      ({ s with airborne := true, velY := 9/20,
                score := if s.demo then s.score else s.score + 200,
                speed := s.speed + 3/100 }, o)

/-- One pass of the per-object body of the `animate` loop for a single object
(lines 2104-2174): advance the object's z by the current speed, then test
`!obj.userData.hit && dz < 2.0 && dx < 2.0` against the player's render
position `(px, pz)` and resolve at most once. -/
def stepObject (s : GameState) (px pz : Rat) (o : WorldObject) :
    GameState × WorldObject :=
  let o1 : WorldObject := { o with z := o.z + s.speed }
  if o1.hit = false ∧ |o1.z - pz| < 2 ∧ |o1.x - px| < 2 then
    resolveHit s { o1 with hit := true }
  else
    (s, o1)

/-- Iterate `stepObject` over a sequence of frames; each frame supplies the
player's render position `(px, pz)` for that frame. -/
def runObject (frames : List (Rat × Rat)) (s : GameState) (o : WorldObject) :
    GameState × WorldObject :=
  match frames with
  | [] => (s, o)
  | p :: ps =>
      let r := stepObject s p.1 p.2 o
      runObject ps r.1 r.2

/-- Inputs that touch the lateral steering state:
  * `key d` — `handleKeyDown` maps ArrowLeft/a to −1, ArrowRight/d to +1,
    ArrowUp/w to 0, writing `moveDirectionRef`;
  * `frame slope` — one `animate` frame: `playerXRef += inputForce +
    gravityForceX` with `inputForce = moveDirection * 0.25` and
    `gravityForceX = -slopeX * 0.4`, then clamp to `[-PLAY_WIDTH, PLAY_WIDTH]`;
  * `drag delta` — `handlePointerMove`: `playerXRef += delta * 0.08`
    (no clamp in the handler). -/
inductive SteerInput where
  | key (d : Int)
  | frame (slope : Rat)
  | drag (delta : Rat)
deriving DecidableEq, Repr

/-- Lateral steering state: `playerXRef` and `moveDirectionRef`. -/
structure SteerState where
  playerX : Rat
  moveDir : Int
deriving DecidableEq, Repr

/-- `PLAY_WIDTH = 25`. -/
def PLAY_WIDTH : Rat := 25

/-- Transition of the steering state on one input (see `SteerInput`). -/
def steerStep (st : SteerState) : SteerInput → SteerState
  | .key d => { st with moveDir := d }
  | .frame slope =>
      let inputForce : Rat := st.moveDir * (1/4)
      let gravityForceX : Rat := -slope * (2/5)
      let x := st.playerX + inputForce + gravityForceX
      { st with playerX := max (-PLAY_WIDTH) (min PLAY_WIDTH x) }
  | .drag delta => { st with playerX := st.playerX + delta * (2/25) }

/-- Run a sequence of steering inputs. -/
def steerRun (st : SteerState) (l : List SteerInput) : SteerState :=
  l.foldl steerStep st

/-- `SEGMENT_LENGTH = 50`. -/
def SEGMENT_LENGTH : Rat := 50

/-- `SEGMENT_COUNT = 3`. -/
def SEGMENT_COUNT : Nat := 3

/-- The z-positions of the `SEGMENT_COUNT = 3` ground segments. -/
structure Segments where
  z0 : Rat
  z1 : Rat
  z2 : Rat
deriving DecidableEq, Repr

/-- The wrap applied to one segment after scrolling:
`if (seg.position.z > SEGMENT_LENGTH) seg.position.z -= SEGMENT_LENGTH * SEGMENT_COUNT`. -/
def wrapSeg (z : Rat) : Rat :=
  if z > SEGMENT_LENGTH then z - SEGMENT_LENGTH * (SEGMENT_COUNT : Rat) else z

/-- One ground-scrolling step (lines 1931-1938): every segment's z advances
by `speed`, then wraps. -/
def advance (speed : Rat) (g : Segments) : Segments :=
  ⟨wrapSeg (g.z0 + speed), wrapSeg (g.z1 + speed), wrapSeg (g.z2 + speed)⟩

/-- Initial segment placement from `createGroundSegment`:
`mesh.position.z = -index * SEGMENT_LENGTH` for index 0, 1, 2. -/
def initialSegments : Segments := ⟨0, -50, -100⟩

/-- Fold `advance` over a list of per-step speeds. -/
def advanceRun (speeds : List Rat) (g : Segments) : Segments :=
  speeds.foldl (fun acc sp => advance sp acc) g

/-- The three segment z-positions are evenly spaced by `SEGMENT_LENGTH`
modulo `SEGMENT_LENGTH * SEGMENT_COUNT = 150`: consecutive differences are
congruent to 50 mod 150. -/
def evenlySpaced (g : Segments) : Prop :=
  (∃ m : ℤ, g.z0 - g.z1 = 50 + 150 * m) ∧ (∃ n : ℤ, g.z1 - g.z2 = 50 + 150 * n)

/-- The category-and-x draw of `spawnObject` (lines 1736-1758), as a function
of the three `Math.random()` draws it consumes: `r1` selects the category,
`sideR` the side for trees (`< 0.5` means left), `r2` the position within
the category's band.
  * `r1 < 0.35`: tree at `x = ±(PLAY_WIDTH + 2 + r2 * 10)`;
  * `r1 < 0.45`: ramp at `x = (r2 - 0.5) * (PLAY_WIDTH * 0.8)`;
  * otherwise `x = (r2 - 0.5) * (PLAY_WIDTH * 1.5)` with subtype rock
    (`r1 < 0.58`), banana (`< 0.73`), pizza (`< 0.83`), mango (`< 0.93`),
    else spaghetti. -/
def spawnPick (r1 sideR r2 : Rat) : ObjKind × Rat :=
  if r1 < 35/100 then
    (.tree, (if sideR < 1/2 then (-1 : Rat) else 1) * (PLAY_WIDTH + 2 + r2 * 10))
  else if r1 < 45/100 then
    (.ramp, (r2 - 1/2) * (PLAY_WIDTH * (8/10)))
  else
    let x := (r2 - 1/2) * (PLAY_WIDTH * (3/2))
    if r1 < 58/100 then (.rock, x)
    else if r1 < 73/100 then (.banana, x)
    else if r1 < 83/100 then (.pizza, x)
    else if r1 < 93/100 then (.mango, x)
    else (.spaghetti, x)

/-- The x position of the i-th barrier tree spawned by `spawnObject`
(lines 1779-1800): `±(barrierOffset + i * 1.5 + r * 0.5)` with
`barrierOffset = PLAY_WIDTH + 1 = 26`. -/
def barrierTreeX (leftSide : Bool) (i : Nat) (r : Rat) : Rat :=
  (if leftSide then (-1 : Rat) else 1) * ((PLAY_WIDTH + 1) + (i : Rat) * (3/2) + r * (1/2))

/-- `INVINCIBILITY_MS = 5000`, the timeout passed to `setTimeout` in the
mango branch. -/
def INVINCIBILITY_MS : Nat := 5000

/-- The invincibility flag as a function of wall-clock time.  The mango
branch runs `isInvincibleRef.current = true; setTimeout(() =>
isInvincibleRef.current = false, 5000)` and never cancels earlier timeouts.
Embedding of the resulting event timeline: given the list `cs` of mango
collection times (ms), each collection writes `true` at time `c` and its
uncancelled timeout writes `false` at time `c + 5000`; `invincibleAt cs T`
is the flag's value once every event at or before `T` has run, i.e. whether
the latest such event is a collection (a collection occurring at the same
instant as an expiry is taken to win). -/
def invincibleAt (cs : List Nat) (T : Nat) : Bool :=
  let collects := cs.filter (fun c => decide (c ≤ T))
  let expiries := (cs.map (fun c => c + INVINCIBILITY_MS)).filter (fun e => decide (e ≤ T))
  !collects.isEmpty && expiries.all (fun e => decide (e ≤ collects.foldl max 0))

/-- The terrain height field `getTerrainHeight` (lines 1135-1150), over the
reals: `zFreq1 = 2π / SEGMENT_LENGTH`,
`base = sin(x * 0.1) * cos(z * zFreq1) * 2.0`,
`detail = cos(x * 0.2 + z * zFreq1 * 2.0) * 0.5`,
`bowl = (|x| / 22)² * 1.5`, result `base + detail + bowl - 2.5`. -/
noncomputable def getTerrainHeight (x z : ℝ) : ℝ :=
  let zFreq1 : ℝ := Real.pi * 2 / 50
  let base := Real.sin (x * 0.1) * Real.cos (z * zFreq1) * 2.0
  let detail := Real.cos (x * 0.2 + z * zFreq1 * 2.0) * 0.5
  let bowl := (|x| / 22) ^ 2 * 1.5
  base + detail + bowl - 2.5

/-! ## Helper lemmas -/

/-- An already-resolved object is skipped by the collision check. -/
lemma stepObject_of_hit (s : GameState) (px pz : Rat) (o : WorldObject)
    (h : o.hit = true) :
    stepObject s px pz o = (s, { o with z := o.z + s.speed }) := by
  simp [stepObject, h]

/-- An already-resolved object never mutates the game state again, over any
number of frames, and its `hit` flag stays true. -/
lemma runObject_of_hit (frames : List (Rat × Rat)) (s : GameState)
    (o : WorldObject) (h : o.hit = true) :
    (runObject frames s o).1 = s ∧ (runObject frames s o).2.hit = true := by
  induction frames generalizing s o with
  | nil => exact ⟨rfl, h⟩
  | cons p ps ih =>
      simp only [runObject]
      rw [stepObject_of_hit s p.1 p.2 o h]
      exact ih s { o with z := o.z + s.speed } h

/-- `resolveHit` never touches the object's `hit` flag. -/
lemma resolveHit_hit (s : GameState) (o : WorldObject) :
    ((resolveHit s o).2).hit = o.hit := by
  obtain ⟨k, ox, oz, oh, ov, osc⟩ := o
  cases k <;> simp only [resolveHit, ObjKind.isCollectible, ObjKind.isObstacle] <;>
    split_ifs <;> rfl

/-- One object pass never drives the score negative. -/
lemma score_step_nonneg (s : GameState) (px pz : Rat) (o : WorldObject)
    (h : 0 ≤ s.score) : 0 ≤ (stepObject s px pz o).1.score := by
  rw [stepObject]
  split
  · obtain ⟨k, ox, oz, oh, ov, osc⟩ := o
    cases k <;>
      simp [resolveHit, ObjKind.isCollectible, ObjKind.isObstacle] <;>
      first
        | omega
        | (split_ifs <;> (try dsimp only) <;> omega)
  · exact h

/-- Score non-negativity is preserved over any number of frames. -/
lemma score_run_nonneg (frames : List (Rat × Rat)) (s : GameState)
    (o : WorldObject) (h : 0 ≤ s.score) :
    0 ≤ (runObject frames s o).1.score := by
  induction frames generalizing s o with
  | nil => exact h
  | cons p ps ih =>
      simp only [runObject]
      exact ih _ _ (score_step_nonneg s p.1 p.2 o h)

/-! ## Claim theorems -/

/-- C1: For a live world object, collision resolution happens at most once.
If the object is unresolved (`hit = false`) and both the lateral and depth
deltas to the player are under the 2.0 hitbox threshold, the engine sets
`hit = true` and applies the object's effect (`resolveHit`); and once `hit`
is true, the object causes no further mutation of the game state (score,
speed, invincibility, jump state) in that frame or any later frame,
regardless of continued overlap. -/
theorem collision_resolution_at_most_once
    (s : GameState) (px pz : Rat) (o : WorldObject) (frames : List (Rat × Rat)) :
    (o.hit = false → |o.z + s.speed - pz| < 2 → |o.x - px| < 2 →
        stepObject s px pz o
          = resolveHit s { o with z := o.z + s.speed, hit := true }
        ∧ (stepObject s px pz o).2.hit = true)
    ∧ (o.hit = true →
        (runObject frames s o).1 = s ∧ (runObject frames s o).2.hit = true) := by
  constructor
  · intro h0 h1 h2
    have he : stepObject s px pz o
        = resolveHit s { o with z := o.z + s.speed, hit := true } := by
      simp [stepObject, h0, h1, h2]
    refine ⟨he, ?_⟩
    rw [he, resolveHit_hit]
  · intro h
    exact runObject_of_hit frames s o h

/-- Witness for C1: a fresh banana overlapping the player resolves and
flips `hit`; a ramp already flagged `hit` leaves the game state untouched
over a further frame of continued overlap. -/
theorem collision_resolution_at_most_once_witness :
    (stepObject ⟨0, 1/10, false, false, 0, false, 1⟩ 0 0
        ⟨.banana, 0, -1/10, false, true, 1⟩
      = resolveHit ⟨0, 1/10, false, false, 0, false, 1⟩
          ⟨.banana, 0, -1/10 + 1/10, true, true, 1⟩
    ∧ (stepObject ⟨0, 1/10, false, false, 0, false, 1⟩ 0 0
        ⟨.banana, 0, -1/10, false, true, 1⟩).2.hit = true)
    ∧ ((runObject [(0, 0)] ⟨5, 1/10, false, false, 0, false, 1⟩
          ⟨.ramp, 0, 0, true, true, 1⟩).1 = ⟨5, 1/10, false, false, 0, false, 1⟩
    ∧ (runObject [(0, 0)] ⟨5, 1/10, false, false, 0, false, 1⟩
          ⟨.ramp, 0, 0, true, true, 1⟩).2.hit = true) :=
  ⟨(collision_resolution_at_most_once ⟨0, 1/10, false, false, 0, false, 1⟩ 0 0
      ⟨.banana, 0, -1/10, false, true, 1⟩ [(0, 0)]).1 rfl (by norm_num) (by norm_num),
   (collision_resolution_at_most_once ⟨5, 1/10, false, false, 0, false, 1⟩ 0 0
      ⟨.ramp, 0, 0, true, true, 1⟩ [(0, 0)]).2 rfl⟩

/-- C2: The score is never negative.  Every collision outcome preserves
non-negativity of the score (banana +100, mango +500, spaghetti +1000,
ramp +200, pizza −50 floored at 0), over one object pass and over any number
of frames; in particular a pizza hit at score 30 yields exactly 0, and a
pizza hit at score 20 yields exactly 0. -/
theorem score_floor_nonneg (s : GameState) (px pz : Rat) (o : WorldObject)
    (frames : List (Rat × Rat)) (h : 0 ≤ s.score) :
    0 ≤ (stepObject s px pz o).1.score
    ∧ 0 ≤ (runObject frames s o).1.score
    ∧ (stepObject ⟨30, 1/10, false, false, 0, false, 1⟩ 0 0
         ⟨.pizza, 0, -1/10, false, true, 1⟩).1.score = 0
    ∧ (stepObject ⟨20, 1/10, false, false, 0, false, 1⟩ 0 0
         ⟨.pizza, 0, -1/10, false, true, 1⟩).1.score = 0 := by
  refine ⟨score_step_nonneg s px pz o h, score_run_nonneg frames s o h, ?_, ?_⟩ <;>
    norm_num [stepObject, resolveHit, ObjKind.isCollectible]

/-- Witness for C2: non-negativity from score 0 through a banana collision
and over a frame sequence. -/
theorem score_floor_nonneg_witness :
    0 ≤ (stepObject ⟨0, 1/10, false, false, 0, false, 1⟩ 0 0
          ⟨.banana, 0, -1/10, false, true, 1⟩).1.score
    ∧ 0 ≤ (runObject [(0, 0)] ⟨0, 1/10, false, false, 0, false, 1⟩
          ⟨.banana, 0, -1/10, false, true, 1⟩).1.score := by
  have h := score_floor_nonneg ⟨0, 1/10, false, false, 0, false, 1⟩ 0 0
    ⟨.banana, 0, -1/10, false, true, 1⟩ [(0, 0)] (by norm_num)
  exact ⟨h.1, h.2.1⟩

/-- C4: A grounded player resolving a ramp collision is launched: `airborne`
becomes true, the vertical velocity is set to the fixed launch impulse 0.45,
the score increases by exactly 200, and the speed increases by exactly the
fixed ramp boost 0.03 (stated outside demo mode, where the score HUD update
is skipped by the source). -/
theorem ramp_launch_grounded
    (s : GameState) (px pz : Rat) (o : WorldObject)
    (hair : s.airborne = false) (hdemo : s.demo = false)
    (hk : o.kind = .ramp) (hh : o.hit = false)
    (hz : |o.z + s.speed - pz| < 2) (hx : |o.x - px| < 2) :
    (stepObject s px pz o).1.airborne = true
    ∧ (stepObject s px pz o).1.velY = 9/20
    ∧ (stepObject s px pz o).1.score = s.score + 200
    ∧ (stepObject s px pz o).1.speed = s.speed + 3/100
    ∧ (stepObject s px pz o).2.hit = true := by
  simp [stepObject, resolveHit, hair, hdemo, hk, hh, hz, hx,
    ObjKind.isCollectible, ObjKind.isObstacle]

/-- Witness for C4: from speed 0.15 = 3/20, the post-hit speed is
0.18 = 9/50. -/
theorem ramp_launch_grounded_witness :
    (stepObject ⟨0, 3/20, false, false, 0, false, 1⟩ 0 0
        ⟨.ramp, 0, -3/20, false, true, 1⟩).1.airborne = true
    ∧ (stepObject ⟨0, 3/20, false, false, 0, false, 1⟩ 0 0
        ⟨.ramp, 0, -3/20, false, true, 1⟩).1.velY = 9/20
    ∧ (stepObject ⟨0, 3/20, false, false, 0, false, 1⟩ 0 0
        ⟨.ramp, 0, -3/20, false, true, 1⟩).1.score = 0 + 200
    ∧ (stepObject ⟨0, 3/20, false, false, 0, false, 1⟩ 0 0
        ⟨.ramp, 0, -3/20, false, true, 1⟩).1.speed = 9/50
    ∧ (stepObject ⟨0, 3/20, false, false, 0, false, 1⟩ 0 0
        ⟨.ramp, 0, -3/20, false, true, 1⟩).2.hit = true := by
  have h := ramp_launch_grounded ⟨0, 3/20, false, false, 0, false, 1⟩ 0 0
    ⟨.ramp, 0, -3/20, false, true, 1⟩ rfl rfl rfl rfl (by norm_num) (by norm_num)
  refine ⟨h.1, h.2.1, h.2.2.1, ?_, h.2.2.2.2⟩
  rw [h.2.2.2.1]
  norm_num

/-- C9: Invincibility does not shield the pizza penalty.  With
`isInvincible = true`, a pizza collision still applies `max(0, score - 50)`
and the squash effect, while an obstacle collision under the same
invincibility leaves the whole game state unchanged (the obstacle is merely
shrunk): the invincibility check guards only the obstacle branch. -/
theorem pizza_penalty_ignores_invincibility
    (s : GameState) (px pz : Rat) (p o : WorldObject)
    (hinv : s.invincible = true) (hdemo : s.demo = false)
    (hpk : p.kind = .pizza) (hph : p.hit = false)
    (hpz : |p.z + s.speed - pz| < 2) (hpx : |p.x - px| < 2)
    (hok : o.kind.isObstacle = true) (hoh : o.hit = false)
    (hoz : |o.z + s.speed - pz| < 2) (hox : |o.x - px| < 2) :
    ((stepObject s px pz p).1.score = max 0 (s.score - 50)
     ∧ (stepObject s px pz p).1.scaleY = 1/2)
    ∧ ((stepObject s px pz o).1 = s
       ∧ (stepObject s px pz o).2.scale = 1/10) := by
  constructor
  · simp [stepObject, resolveHit, hinv, hdemo, hpk, hph, hpz, hpx,
      ObjKind.isCollectible]
  · obtain ⟨k, ox, oz, oh, ov, osc⟩ := o
    cases k <;> simp_all [stepObject, resolveHit, ObjKind.isCollectible,
      ObjKind.isObstacle]

/-- Witness for C9: an invincible player at score 100 hit by a pizza drops
to 50 and squashes; a tree hit under the same invincibility changes no game
state. -/
theorem pizza_penalty_ignores_invincibility_witness :
    (((stepObject ⟨100, 1/10, true, false, 0, false, 1⟩ 0 0
        ⟨.pizza, 0, -1/10, false, true, 1⟩).1.score
          = max 0 ((100 : Int) - 50))
     ∧ (stepObject ⟨100, 1/10, true, false, 0, false, 1⟩ 0 0
        ⟨.pizza, 0, -1/10, false, true, 1⟩).1.scaleY = 1/2)
    ∧ ((stepObject ⟨100, 1/10, true, false, 0, false, 1⟩ 0 0
        ⟨.tree, 1, -1/10, false, true, 1⟩).1 = ⟨100, 1/10, true, false, 0, false, 1⟩
       ∧ (stepObject ⟨100, 1/10, true, false, 0, false, 1⟩ 0 0
        ⟨.tree, 1, -1/10, false, true, 1⟩).2.scale = 1/10) :=
  pizza_penalty_ignores_invincibility ⟨100, 1/10, true, false, 0, false, 1⟩ 0 0
    ⟨.pizza, 0, -1/10, false, true, 1⟩ ⟨.tree, 1, -1/10, false, true, 1⟩
    rfl rfl rfl rfl (by norm_num) (by norm_num) rfl rfl (by norm_num) (by norm_num)

/-- C10: A ramp overlapped while already airborne is consumed with no
effect: its `hit` flag is set, the game state is left completely unchanged,
and because `hit` is then true the ramp can never grant its launch, bonus,
or speed boost in any later frame, even after landing while still
overlapping it. -/
theorem ramp_consumed_while_airborne
    (s : GameState) (px pz : Rat) (o : WorldObject) (frames : List (Rat × Rat))
    (hair : s.airborne = true) (hk : o.kind = .ramp) (hh : o.hit = false)
    (hz : |o.z + s.speed - pz| < 2) (hx : |o.x - px| < 2) :
    (stepObject s px pz o).1 = s
    ∧ (stepObject s px pz o).2.hit = true
    ∧ (runObject frames (stepObject s px pz o).1 (stepObject s px pz o).2).1 = s
    ∧ (runObject frames (stepObject s px pz o).1 (stepObject s px pz o).2).2.hit
        = true := by
  have h1 : (stepObject s px pz o).1 = s := by
    simp [stepObject, resolveHit, hair, hk, hh, hz, hx,
      ObjKind.isCollectible, ObjKind.isObstacle]
  have h2 : (stepObject s px pz o).2.hit = true := by
    simp [stepObject, resolveHit, hair, hk, hh, hz, hx,
      ObjKind.isCollectible, ObjKind.isObstacle]
  have h3 := runObject_of_hit frames (stepObject s px pz o).1
    (stepObject s px pz o).2 h2
  exact ⟨h1, h2, h3.1.trans h1, h3.2⟩

/-- Witness for C10: an airborne player overlapping a fresh ramp consumes it
with no state change, including over a later frame of continued overlap. -/
theorem ramp_consumed_while_airborne_witness :
    (stepObject ⟨0, 1/10, false, true, 1/4, false, 1⟩ 0 0
        ⟨.ramp, 0, -1/10, false, true, 1⟩).1 = ⟨0, 1/10, false, true, 1/4, false, 1⟩
    ∧ (stepObject ⟨0, 1/10, false, true, 1/4, false, 1⟩ 0 0
        ⟨.ramp, 0, -1/10, false, true, 1⟩).2.hit = true
    ∧ (runObject [(0, 0)]
        (stepObject ⟨0, 1/10, false, true, 1/4, false, 1⟩ 0 0
          ⟨.ramp, 0, -1/10, false, true, 1⟩).1
        (stepObject ⟨0, 1/10, false, true, 1/4, false, 1⟩ 0 0
          ⟨.ramp, 0, -1/10, false, true, 1⟩).2).1
      = ⟨0, 1/10, false, true, 1/4, false, 1⟩
    ∧ (runObject [(0, 0)]
        (stepObject ⟨0, 1/10, false, true, 1/4, false, 1⟩ 0 0
          ⟨.ramp, 0, -1/10, false, true, 1⟩).1
        (stepObject ⟨0, 1/10, false, true, 1/4, false, 1⟩ 0 0
          ⟨.ramp, 0, -1/10, false, true, 1⟩).2).2.hit = true :=
  ramp_consumed_while_airborne ⟨0, 1/10, false, true, 1/4, false, 1⟩ 0 0
    ⟨.ramp, 0, -1/10, false, true, 1⟩ [(0, 0)]
    rfl rfl rfl (by norm_num) (by norm_num)

/-- The clamp applied by an `animate` frame lands `playerXRef` in
`[-PLAY_WIDTH, PLAY_WIDTH]` whatever the incoming value and forces. -/
lemma steerStep_frame_bounds (st : SteerState) (slope : Rat) :
    -PLAY_WIDTH ≤ (steerStep st (.frame slope)).playerX
    ∧ (steerStep st (.frame slope)).playerX ≤ PLAY_WIDTH := by
  simp only [steerStep]
  exact ⟨le_max_left _ _, max_le (by norm_num [PLAY_WIDTH]) (min_le_left _ _)⟩

/-- Keyboard events and frames (no pointer drags) keep `playerXRef` inside
the play band. -/
lemma steerRun_nodrag_bounds (l : List SteerInput) :
    ∀ st : SteerState, (∀ d : Rat, SteerInput.drag d ∉ l) →
    -PLAY_WIDTH ≤ st.playerX → st.playerX ≤ PLAY_WIDTH →
    -PLAY_WIDTH ≤ (steerRun st l).playerX
    ∧ (steerRun st l).playerX ≤ PLAY_WIDTH := by
  induction l with
  | nil => exact fun st _ h0 h1 => ⟨h0, h1⟩
  | cons i is ih =>
      intro st hnd h0 h1
      have hnd' : ∀ d : Rat, SteerInput.drag d ∉ is :=
        fun d hm => hnd d (List.mem_cons_of_mem _ hm)
      have hrw : steerRun st (i :: is) = steerRun (steerStep st i) is := rfl
      rw [hrw]
      cases i with
      | key d => exact ih _ hnd' h0 h1
      | frame slope =>
          exact ih _ hnd' (steerStep_frame_bounds st slope).1
            (steerStep_frame_bounds st slope).2
      | drag d => exact absurd (List.mem_cons_self _ _) (hnd d)

/-- Counterexample to C3 as stated: starting from the reset position
`playerXRef = 0`, a single pointer-drag event of 1000 px moves `playerXRef`
to `0 + 1000 * 0.08 = 80`, outside `[-PLAY_WIDTH, PLAY_WIDTH]` — the drag
handler adds `delta * 0.08` without clamping. -/
theorem lateral_clamp_counterexample :
    (steerRun ⟨0, 0⟩ [SteerInput.drag 1000]).playerX = 80
    ∧ ¬ ((steerRun ⟨0, 0⟩ [SteerInput.drag 1000]).playerX ≤ PLAY_WIDTH) := by
  norm_num [steerRun, steerStep, PLAY_WIDTH]

/-- C3 amended: `playerXRef` is inside `[-PLAY_WIDTH, PLAY_WIDTH]` after
every `animate` frame (whatever inputs preceded it), and it never leaves the
interval under keyboard-only input; only a pointer-drag event can push it
outside the interval transiently, until the next frame's clamp. -/
theorem lateral_clamp_amended :
    (∀ (st : SteerState) (l : List SteerInput) (slope : Rat),
        -PLAY_WIDTH ≤ (steerRun st (l ++ [SteerInput.frame slope])).playerX
        ∧ (steerRun st (l ++ [SteerInput.frame slope])).playerX ≤ PLAY_WIDTH)
    ∧ (∀ (st : SteerState) (l : List SteerInput),
        (∀ d : Rat, SteerInput.drag d ∉ l) →
        -PLAY_WIDTH ≤ st.playerX → st.playerX ≤ PLAY_WIDTH →
        -PLAY_WIDTH ≤ (steerRun st l).playerX
        ∧ (steerRun st l).playerX ≤ PLAY_WIDTH) := by
  constructor
  · intro st l slope
    simp only [steerRun, List.foldl_append, List.foldl_cons, List.foldl_nil]
    exact steerStep_frame_bounds _ slope
  · exact fun st l hnd h0 h1 => steerRun_nodrag_bounds l st hnd h0 h1

/-- Witness for the amended C3: a wild drag followed by one frame is back in
band; a keyboard press plus a frame stays in band. -/
theorem lateral_clamp_amended_witness :
    (-PLAY_WIDTH ≤ (steerRun ⟨0, 0⟩
        ([SteerInput.drag 1000] ++ [SteerInput.frame 0])).playerX
      ∧ (steerRun ⟨0, 0⟩
        ([SteerInput.drag 1000] ++ [SteerInput.frame 0])).playerX ≤ PLAY_WIDTH)
    ∧ (-PLAY_WIDTH ≤ (steerRun ⟨0, 0⟩
        [SteerInput.key 1, SteerInput.frame 0]).playerX
      ∧ (steerRun ⟨0, 0⟩
        [SteerInput.key 1, SteerInput.frame 0]).playerX ≤ PLAY_WIDTH) :=
  ⟨lateral_clamp_amended.1 ⟨0, 0⟩ [SteerInput.drag 1000] 0,
   lateral_clamp_amended.2 ⟨0, 0⟩ [SteerInput.key 1, SteerInput.frame 0]
     (by intro d hd; simp at hd) (by norm_num [PLAY_WIDTH])
     (by norm_num [PLAY_WIDTH])⟩

/-- `wrapSeg` shifts a z-position by an integer multiple of
`SEGMENT_LENGTH * SEGMENT_COUNT = 150`. -/
lemma wrapSeg_sub (z : Rat) : ∃ k : ℤ, wrapSeg z = z - 150 * k := by
  rw [wrapSeg]
  split
  · exact ⟨1, by norm_num [SEGMENT_LENGTH, SEGMENT_COUNT]⟩
  · exact ⟨0, by norm_num⟩

/-- One `advance` step preserves the even-spacing invariant. -/
lemma advance_evenlySpaced (sp : Rat) (g : Segments) (h : evenlySpaced g) :
    evenlySpaced (advance sp g) := by
  obtain ⟨⟨m, hm⟩, ⟨n, hn⟩⟩ := h
  obtain ⟨k0, hk0⟩ := wrapSeg_sub (g.z0 + sp)
  obtain ⟨k1, hk1⟩ := wrapSeg_sub (g.z1 + sp)
  obtain ⟨k2, hk2⟩ := wrapSeg_sub (g.z2 + sp)
  refine ⟨⟨m + k1 - k0, ?_⟩, ⟨n + k2 - k1, ?_⟩⟩ <;>
    simp only [advance, hk0, hk1, hk2] <;> push_cast <;> linarith

/-- The even-spacing invariant is preserved by any sequence of `advance`
steps. -/
lemma advanceRun_evenlySpaced (speeds : List Rat) :
    ∀ g : Segments, evenlySpaced g → evenlySpaced (advanceRun speeds g) := by
  induction speeds with
  | nil => exact fun g h => h
  | cons sp sps ih =>
      intro g h
      exact ih _ (advance_evenlySpaced sp g h)

/-- C6: After any number of `advance(speed)` steps from the initial
placement `0, -50, -100`, the three ground-segment z-positions remain evenly
spaced by `SEGMENT_LENGTH = 50` modulo `SEGMENT_LENGTH * SEGMENT_COUNT =
150`, for every non-negative per-step speed. -/
theorem segment_wrap_spacing (speeds : List Rat) (h : ∀ sp ∈ speeds, 0 ≤ sp) :
    evenlySpaced (advanceRun speeds initialSegments) :=
  advanceRun_evenlySpaced speeds initialSegments
    ⟨⟨0, by norm_num [initialSegments]⟩, ⟨0, by norm_num [initialSegments]⟩⟩

/-- Witness for C6: spacing holds after the concrete speed sequence
`[0.13, 200, 0]`, whose middle step overshoots a whole wrap period. -/
theorem segment_wrap_spacing_witness :
    evenlySpaced (advanceRun [13/100, 200, 0] initialSegments) :=
  segment_wrap_spacing [13/100, 200, 0] (by norm_num)

/-- The z-argument of `getTerrainHeight` has period `SEGMENT_LENGTH = 50`:
both cosine terms advance by full turns (2π and 4π respectively). -/
lemma getTerrainHeight_period (x z : ℝ) :
    getTerrainHeight x (z + 50) = getTerrainHeight x z := by
  simp only [getTerrainHeight]
  have h1 : (z + 50) * (Real.pi * 2 / 50)
      = z * (Real.pi * 2 / 50) + 2 * Real.pi := by
    ring
  have h2 : x * 0.2 + (z * (Real.pi * 2 / 50) + 2 * Real.pi) * 2.0
      = (x * 0.2 + z * (Real.pi * 2 / 50) * 2.0 + 2 * Real.pi) + 2 * Real.pi := by
    ring
  rw [h1, h2, Real.cos_add_two_pi, Real.cos_add_two_pi, Real.cos_add_two_pi]

/-- C7: The terrain height function is exactly periodic in z with period
`SEGMENT_LENGTH = 50` over the reals, for every x and z; in particular
`height(5, 49.9) = height(5, -0.1)`. -/
theorem terrain_height_periodic :
    (∀ x z : ℝ, getTerrainHeight x (z + 50) = getTerrainHeight x z)
    ∧ getTerrainHeight 5 (49.9 : ℝ) = getTerrainHeight 5 (-0.1 : ℝ) := by
  refine ⟨getTerrainHeight_period, ?_⟩
  have h := getTerrainHeight_period 5 (-0.1 : ℝ)
  have he : ((-0.1 : ℝ) + 50) = (49.9 : ℝ) := by norm_num
  rw [he] at h
  exact h

/-- Counterexample to C8 as stated: the category draw `r1 = 0.5` yields a
rock — an obstacle — at `x = (0.5 - 0.5) * (PLAY_WIDTH * 1.5) = 0`, dead
center of the play band, not beyond it: rocks are placed by the same
centered formula as collectibles. -/
theorem spawn_rock_center_counterexample :
    (spawnPick (1/2) 0 (1/2)).1 = .rock
    ∧ ObjKind.isObstacle (spawnPick (1/2) 0 (1/2)).1 = true
    ∧ (spawnPick (1/2) 0 (1/2)).2 = 0
    ∧ ¬ (PLAY_WIDTH ≤ |(spawnPick (1/2) 0 (1/2)).2|) := by
  norm_num [spawnPick, PLAY_WIDTH, ObjKind.isObstacle]

/-- C8 amended: among obstacles only trees are placed toward the track
edges — spawned trees land at `|x| ≥ 27` and barrier trees at `|x| ≥ 26`,
beyond the play band — while ramps land within `|x| ≤ 10` and rocks and
collectibles land within `|x| ≤ 18.75`, inside the central play band. -/
theorem spawn_lateral_bands (r1 sideR r2 : Rat) (h0 : 0 ≤ r2) (h1 : r2 < 1)
    (i : Nat) (r : Rat) (hr0 : 0 ≤ r) :
    ((spawnPick r1 sideR r2).1 = .tree → 27 ≤ |(spawnPick r1 sideR r2).2|)
    ∧ ((spawnPick r1 sideR r2).1 = .ramp → |(spawnPick r1 sideR r2).2| ≤ 10)
    ∧ ((spawnPick r1 sideR r2).1 = .rock
        ∨ ((spawnPick r1 sideR r2).1).isCollectible = true →
        |(spawnPick r1 sideR r2).2| ≤ 75/4)
    ∧ 26 ≤ |barrierTreeX true i r| ∧ 26 ≤ |barrierTreeX false i r| := by
  have hic : (0 : Rat) ≤ (i : Rat) := Nat.cast_nonneg i
  refine ⟨?_, ?_, ?_, ?_, ?_⟩
  · simp only [spawnPick, PLAY_WIDTH]
    split_ifs
    · intro hk; dsimp only; exact le_abs.mpr (Or.inr (by nlinarith))
    · intro hk; dsimp only; exact le_abs.mpr (Or.inl (by nlinarith))
    · intro hk; exact absurd hk (by simp)
    · intro hk; exact absurd hk (by simp)
    · intro hk; exact absurd hk (by simp)
    · intro hk; exact absurd hk (by simp)
    · intro hk; exact absurd hk (by simp)
    · intro hk; exact absurd hk (by simp)
  · simp only [spawnPick, PLAY_WIDTH]
    split_ifs
    · intro hk; exact absurd hk (by simp)
    · intro hk; exact absurd hk (by simp)
    · intro hk; dsimp only; exact abs_le.mpr ⟨by nlinarith, by nlinarith⟩
    · intro hk; exact absurd hk (by simp)
    · intro hk; exact absurd hk (by simp)
    · intro hk; exact absurd hk (by simp)
    · intro hk; exact absurd hk (by simp)
    · intro hk; exact absurd hk (by simp)
  · simp only [spawnPick, PLAY_WIDTH]
    split_ifs
    · intro hk; rcases hk with hk | hk <;> simp [ObjKind.isCollectible] at hk
    · intro hk; rcases hk with hk | hk <;> simp [ObjKind.isCollectible] at hk
    · intro hk; rcases hk with hk | hk <;> simp [ObjKind.isCollectible] at hk
    · intro hk; dsimp only; exact abs_le.mpr ⟨by nlinarith, by nlinarith⟩
    · intro hk; dsimp only; exact abs_le.mpr ⟨by nlinarith, by nlinarith⟩
    · intro hk; dsimp only; exact abs_le.mpr ⟨by nlinarith, by nlinarith⟩
    · intro hk; dsimp only; exact abs_le.mpr ⟨by nlinarith, by nlinarith⟩
    · intro hk; dsimp only; exact abs_le.mpr ⟨by nlinarith, by nlinarith⟩
  · simp only [barrierTreeX, PLAY_WIDTH]
    rw [if_pos trivial]
    exact le_abs.mpr (Or.inr (by nlinarith))
  · simp only [barrierTreeX, PLAY_WIDTH]
    rw [if_neg (by simp)]
    exact le_abs.mpr (Or.inl (by nlinarith))

/-- Witness for the amended C8 at concrete draws: category roll 0.1 (tree),
side roll 0 (left), band roll 0.5; barrier index 0 with roll 0.5. -/
theorem spawn_lateral_bands_witness :
    (((spawnPick (1/10) (0 : Rat) (1/2)).1 = .tree →
        27 ≤ |(spawnPick (1/10) (0 : Rat) (1/2)).2|)
    ∧ ((spawnPick (1/10) (0 : Rat) (1/2)).1 = .ramp →
        |(spawnPick (1/10) (0 : Rat) (1/2)).2| ≤ 10)
    ∧ ((spawnPick (1/10) (0 : Rat) (1/2)).1 = .rock
        ∨ ((spawnPick (1/10) (0 : Rat) (1/2)).1).isCollectible = true →
        |(spawnPick (1/10) (0 : Rat) (1/2)).2| ≤ 75/4)
    ∧ 26 ≤ |barrierTreeX true 0 (1/2)| ∧ 26 ≤ |barrierTreeX false 0 (1/2)|) :=
  spawn_lateral_bands (1/10) 0 (1/2) (by norm_num) (by norm_num) 0 (1/2)
    (by norm_num)

/-- Counterexample to C5 as stated: mangoes collected at t = 0 ms and
t = 3000 ms.  The first mango's uncancelled `setTimeout` fires at t = 5000,
clearing `isInvincible` only 2000 ms after the second collection, although
the claim demands invincibility until t = 3000 + 5000 = 8000. -/
theorem invincibility_expiry_counterexample :
    invincibleAt [0, 3000] 5000 = false
    ∧ 3000 ≤ 5000 ∧ 5000 < 3000 + INVINCIBILITY_MS := by decide

/-- C5 amended: a mango sets `isInvincible = true` and schedules an
uncancelled 5000 ms timeout clearing it, so a mango collected with no other
collection pending keeps invincibility for exactly 5000 ms (true throughout
`[c, c + 5000)`, false from `c + 5000`); but a mango collected while an
earlier mango's timer is still pending has its invincibility ended by that
earlier timer, 5000 ms after the earlier collection. -/
theorem invincibility_timer_amended :
    (∀ c T : Nat, c ≤ T → T < c + INVINCIBILITY_MS →
        invincibleAt [c] T = true)
    ∧ (∀ c T : Nat, c + INVINCIBILITY_MS ≤ T →
        invincibleAt [c] T = false)
    ∧ (∀ c1 c2 : Nat, c1 < c2 → c2 < c1 + INVINCIBILITY_MS →
        invincibleAt [c1, c2] (c1 + INVINCIBILITY_MS) = false) := by
  refine ⟨?_, ?_, ?_⟩
  · intro c T h1 h2
    have hne : ¬ (c + INVINCIBILITY_MS ≤ T) := by omega
    simp [invincibleAt, h1, hne]
  · intro c T h
    have h1 : c ≤ T := by omega
    simp [invincibleAt, h1, h, List.foldl, Nat.zero_max, INVINCIBILITY_MS]
    exact h
  · intro c1 c2 h1 h2
    have ha : c1 ≤ c1 + INVINCIBILITY_MS := by omega
    have hb : c2 ≤ c1 + INVINCIBILITY_MS := by omega
    have hc : c1 + INVINCIBILITY_MS ≤ c1 + INVINCIBILITY_MS := le_refl _
    have hd : ¬ (c2 + INVINCIBILITY_MS ≤ c1 + INVINCIBILITY_MS) := by omega
    simp [invincibleAt, ha, hb, hc, hd, List.foldl, Nat.zero_max]
    omega

/-- Witness for the amended C5: a lone mango at t = 1000 is invincible at
t = 5999 and not at t = 6000; overlapping mangoes at t = 0 and t = 3000 are
no longer invincible at t = 5000. -/
theorem invincibility_timer_amended_witness :
    invincibleAt [1000] 5999 = true
    ∧ invincibleAt [1000] 6000 = false
    ∧ invincibleAt [0, 3000] (0 + INVINCIBILITY_MS) = false :=
  ⟨invincibility_timer_amended.1 1000 5999 (by decide) (by decide),
   invincibility_timer_amended.2.1 1000 6000 (by decide),
   invincibility_timer_amended.2.2 0 3000 (by decide) (by decide)⟩
